import Mathlib

/-!
Shallow embedding of the productivity-app backend (Django REST) core:
entity store, role-based queryset filtering, and the aggregation
endpoints `daily_summary` (timetracking/views.py) and `progress_report`
(projects/views.py).

Modelling conventions:
* timestamps (`DateTimeField`) are minutes since an epoch (`Nat`);
  the calendar date of a timestamp is its floor-division by 1440
  (minutes per day), mirroring `datetime.date()` / `__date` lookups;
* hours are exact rationals (`ℚ`);
* SQL `Sum` over a group ignores NULL summands and yields NULL when the
  group has no non-NULL summand; a NULL flowing into Python's
  `round(x, 2)` raises `TypeError`, embedded as `Except.error`;
* Django's queryset filters become `List.filter`;
* `random.randint(60, 100)` is embedded by threading an explicit stream
  `rng : Nat → Nat` of draws, one per loop iteration, with the drawn
  score `60 + rng i % 41 ∈ [60, 100]`.
-/

/-- A Django auth user (`users/models.py`): role is derived from the
superuser flag and group membership, never stored. `user_permissions`
holds Django model-permission codenames effective for the user
(including those inherited from groups). -/
structure User where
  id : Nat
  username : String
  is_staff : Bool
  is_superuser : Bool
  groups : List String
  user_permissions : List String
deriving DecidableEq

/-- `projects.models.Team`: optional head, many-to-many members (by user id). -/
structure Team where
  id : Nat
  name : String
  head : Option Nat
  members : List Nat
deriving DecidableEq

/-- `projects.models.Project`: optional manager and team, float budget, status. -/
structure Project where
  id : Nat
  name : String
  manager : Option Nat
  team : Option Nat
  estimated_hours : ℚ
  status : String
deriving DecidableEq

/-- `timetracking.models.TimeLog`: owning user, start, optional end
(null = ongoing), optional project. Times in minutes since epoch. -/
structure TimeLog where
  id : Nat
  user : Nat
  start_time : Nat
  end_time : Option Nat
  project : Option Nat
deriving DecidableEq

/-- `timetracking.models.AppUsage`: owning user, app name, duration in
seconds, sample timestamp. -/
structure AppUsage where
  id : Nat
  user : Nat
  app_name : String
  duration_seconds : Nat
  timestamp : Nat
deriving DecidableEq

/-- `timetracking.models.ActivityMetric`: owning user, metric type, value,
timestamp. -/
structure ActivityMetric where
  id : Nat
  user : Nat
  metric_type : String
  value : ℚ
  timestamp : Nat
deriving DecidableEq

/-- The relational entity store: one list per table. -/
structure Store where
  users : List User
  teams : List Team
  projects : List Project
  time_logs : List TimeLog
  app_usages : List AppUsage
  activity_metrics : List ActivityMetric
deriving DecidableEq

/-- Calendar date (day number) of a timestamp in minutes: `datetime.date()`. -/
def dateOf (t : Nat) : Nat := t / 1440

/-- `user.groups.filter(name=g).exists()`. -/
def inGroup (u : User) (g : String) : Bool := u.groups.contains g

/-- `User.role` property (users/models.py): superuser ↦ admin, else first
matching group, else employee. -/
def role (u : User) : String :=
  if u.is_superuser then "admin"
  else if inGroup u "TeamHeads" then "team_head"
  else if inGroup u "ProjectManagers" then "project_manager"
  else "employee"

/-- Round a rational to the nearest integer, ties to even (Python `round`). -/
def roundHalfEven (q : ℚ) : ℤ :=
  let f := ⌊q⌋
  if q - f < 1/2 then f
  else if q - f > 1/2 then f + 1
  else if f % 2 = 0 then f else f + 1

/-- Python `round(x, 2)`: round to 2 decimal places, ties to even. -/
def round2 (q : ℚ) : ℚ := (roundHalfEven (q * 100) : ℚ) / 100

/-- `User.objects.filter(teams__head=user)`: ids of users who are members of
some team headed by `u` (timetracking/views.py team-head branches). -/
def team_member_ids (s : Store) (u : User) : List Nat :=
  (s.users.filter (fun m =>
    s.teams.any (fun t => t.head == some u.id && t.members.contains m.id))).map User.id

/-- `user.managed_projects.values_list('id', flat=True)`. -/
def managed_project_ids (s : Store) (u : User) : List Nat :=
  (s.projects.filter (fun p => p.manager == some u.id)).map Project.id

/-- `TimeLogViewSet.get_queryset` (timetracking/views.py lines 47-67):
admin sees all, team head sees team members' logs, project manager sees
logs on managed projects, employee sees own logs. -/
def timelog_queryset (s : Store) (u : User) : List TimeLog :=
  if u.is_superuser then s.time_logs
  else if inGroup u "TeamHeads" then
    s.time_logs.filter (fun l => (team_member_ids s u).contains l.user)
  else if inGroup u "ProjectManagers" then
    s.time_logs.filter (fun l =>
      match l.project with
      | some pid => (managed_project_ids s u).contains pid
      | none => false)
  else
    s.time_logs.filter (fun l => l.user == u.id)

/-- `AppUsageViewSet.get_queryset` (timetracking/views.py lines 134-145).
The project-manager branch filters on `timelogs__project__id__in`, but the
`AppUsage` model (timetracking/models.py) declares no field or relation
named `timelogs`, so Django raises `FieldError` when the queryset is
evaluated; embedded as `Except.error`. -/
def appusage_queryset (s : Store) (u : User) : Except String (List AppUsage) :=
  if u.is_superuser then .ok s.app_usages
  else if inGroup u "TeamHeads" then
    .ok (s.app_usages.filter (fun a => (team_member_ids s u).contains a.user))
  else if inGroup u "ProjectManagers" then
    .error "FieldError: cannot resolve keyword timelogs into field of AppUsage"
  else .ok (s.app_usages.filter (fun a => a.user == u.id))

/-- `ActivityMetricViewSet.get_queryset` (timetracking/views.py lines
185-196): same shape as `appusage_queryset`, including the unresolvable
`timelogs` keyword in the project-manager branch. -/
def activitymetric_queryset (s : Store) (u : User) : Except String (List ActivityMetric) :=
  if u.is_superuser then .ok s.activity_metrics
  else if inGroup u "TeamHeads" then
    .ok (s.activity_metrics.filter (fun a => (team_member_ids s u).contains a.user))
  else if inGroup u "ProjectManagers" then
    .error "FieldError: cannot resolve keyword timelogs into field of ActivityMetric"
  else .ok (s.activity_metrics.filter (fun a => a.user == u.id))

/-- Duration of a log in hours, NULL (`none`) when the log is open:
`ExpressionWrapper(F('end_time') - F('start_time'))` divided by
`timedelta(hours=1)`; minutes over 60. -/
def durationHours (l : TimeLog) : Option ℚ :=
  l.end_time.map (fun e => ((e : ℚ) - (l.start_time : ℚ)) / 60)

/-- One output row of `daily_summary`. -/
structure DayRecord where
  date : Nat
  working_hours : ℚ
  app_usage_hours : ℚ
  productivity_score : Nat
deriving DecidableEq

/-- The logs of a queryset whose start falls on day `d`: the
`values('start_time__date')` group for that date. -/
def day_logs (qs : List TimeLog) (d : Nat) : List TimeLog :=
  qs.filter (fun l => dateOf l.start_time == d)

/-- The `working_hours` lookup for one day (timetracking/views.py lines
95-102 and 115, 121): if no log starts that day the group is absent and
the default `0.0` is rounded; if the day's group exists, SQL `Sum`
ignores the NULL durations of open logs, but returns NULL when every log
that day is open, and `round(None, 2)` then raises `TypeError`. -/
def day_working_hours (qs : List TimeLog) (d : Nat) : Except String ℚ :=
  if (day_logs qs d).isEmpty then .ok 0
  else if ((day_logs qs d).filterMap durationHours).isEmpty then
    .error "TypeError: type NoneType does not define a round method"
  else .ok (round2 ((day_logs qs d).filterMap durationHours).sum)

/-- The `app_usage_hours` lookup for one day (lines 105-108, 116, 122):
`Sum('duration_seconds') / 3600` is SQL integer division, default `0.0`
when the day has no samples. -/
def day_app_usage_hours (aqs : List AppUsage) (d : Nat) : ℚ :=
  let as_d := aqs.filter (fun a => dateOf a.timestamp == d)
  if as_d.isEmpty then 0
  else (((as_d.map AppUsage.duration_seconds).sum) / 3600 : Nat)

/-- The result-assembly loop of `daily_summary` (lines 111-124) over
(index, date) pairs; the index feeds the per-iteration random draw. -/
def build_days (qs : List TimeLog) (aqs : List AppUsage) (rng : Nat → Nat) :
    List (Nat × Nat) → Except String (List DayRecord)
  | [] => .ok []
  | (i, d) :: rest => do
    let wh ← day_working_hours qs d
    let tail ← build_days qs aqs rng rest
    .ok ({ date := d, working_hours := wh,
           app_usage_hours := day_app_usage_hours aqs d,
           productivity_score := 60 + rng i % 41 } :: tail)

/-- `date_range = [start_date + timedelta(days=i) for i in range((end_date - start_date).days + 1)]`. -/
def date_range (sd ed : Nat) : List Nat :=
  (List.range (ed + 1 - sd)).map (fun i => sd + i)

/-- `self.get_queryset().filter(user=user)` further filtered by
`start_time__date__range=[start_date, end_date]` (lines 79, 87). -/
def ds_timelog_queryset (s : Store) (u : User) (sd ed : Nat) : List TimeLog :=
  (timelog_queryset s u).filter
    (fun l => l.user == u.id && decide (sd ≤ dateOf l.start_time)
      && decide (dateOf l.start_time ≤ ed))

/-- `AppUsage.objects.filter(user=user, timestamp__date__range=...)`
(line 105): note it bypasses the role queryset. -/
def ds_appusage_queryset (s : Store) (u : User) (sd ed : Nat) : List AppUsage :=
  s.app_usages.filter
    (fun a => a.user == u.id && decide (sd ≤ dateOf a.timestamp)
      && decide (dateOf a.timestamp ≤ ed))

/-- `TimeLogViewSet.daily_summary` (timetracking/views.py lines 72-126)
with an explicit date range `[sd, ed]`. -/
def daily_summary (s : Store) (u : User) (sd ed : Nat) (rng : Nat → Nat) :
    Except String (List DayRecord) :=
  build_days (ds_timelog_queryset s u sd ed) (ds_appusage_queryset s u sd ed) rng
    ((List.range (ed + 1 - sd)).map (fun i => (i, sd + i)))

/-- Response shape of `ProjectViewSet.progress_report`. -/
structure ProgressReport where
  project_id : Nat
  project_name : String
  estimated_hours : ℚ
  total_time_spent_hours : ℚ
  progress_percentage : ℚ
  status : String
deriving DecidableEq

/-- `project.time_logs`: reverse foreign key from TimeLog.project. -/
def project_time_logs (s : Store) (p : Project) : List TimeLog :=
  s.time_logs.filter (fun l => l.project == some p.id)

/-- `ProjectViewSet.progress_report` (projects/views.py lines 72-99):
SQL `Sum` over `end_time - start_time` ignores open logs (NULL); the
`if total_time_spent_seconds else 0` guard maps both NULL and a zero
timedelta to 0, which coincides with the empty/zero rational sum; the
division by `estimated_hours` is guarded by `estimated_hours > 0`. -/
def progress_report (s : Store) (p : Project) : ProgressReport :=
  let total_time_spent_hours : ℚ := ((project_time_logs s p).filterMap durationHours).sum
  let progress_percentage : ℚ :=
    if 0 < p.estimated_hours then total_time_spent_hours / p.estimated_hours * 100 else 0
  { project_id := p.id
    project_name := p.name
    estimated_hours := p.estimated_hours
    total_time_spent_hours := round2 total_time_spent_hours
    progress_percentage := round2 progress_percentage
    status := p.status }

deriving instance DecidableEq for Except

/-- Sum, in hours, of the closed-log durations of a queryset on day `d`
(the specification's per-day aggregate). -/
def closed_day_sum (qs : List TimeLog) (d : Nat) : ℚ :=
  ((day_logs qs d).filterMap durationHours).sum

/-- Every day of the range on which some queryset log starts also has a
closed log starting then: exactly the condition under which the per-day
SQL `Sum` is never NULL and `daily_summary` cannot hit `round(None, 2)`. -/
def no_open_only_day (s : Store) (u : User) (sd ed : Nat) : Bool :=
  (date_range sd ed).all (fun d =>
    (day_logs (ds_timelog_queryset s u sd ed) d).isEmpty
      || !((day_logs (ds_timelog_queryset s u sd ed) d).filterMap durationHours).isEmpty)

/-- Sum of closed-log durations over a whole project (spec wording for
`progress_report`). -/
def total_closed_hours (s : Store) (p : Project) : ℚ :=
  ((project_time_logs s p).filterMap durationHours).sum

/-- The write actions of a ModelViewSet that `get_permissions` singles
out in projects/views.py (`create`, `update`, `partial_update`,
`destroy`). -/
inductive WAction where
  | create
  | update
  | partialUpdate
  | destroy
deriving DecidableEq

/-- Django model-permission codename required by
`DjangoObjectPermissions` for each write action (POST ↦ add,
PUT/PATCH ↦ change, DELETE ↦ delete). -/
def required_perm (app model : String) : WAction → String
  | .create => app ++ ".add_" ++ model
  | .update => app ++ ".change_" ++ model
  | .partialUpdate => app ++ ".change_" ++ model
  | .destroy => app ++ ".delete_" ++ model

/-- `user.has_perm(p)` for an authenticated user: `user_permissions`
holds the user's effective model permissions (own plus group-inherited). -/
def has_django_perm (u : User) (p : String) : Bool := u.user_permissions.contains p

/-- `rest_framework.permissions.IsAdminUser`: checks the staff flag,
not the superuser flag. -/
def is_admin_user (u : User) : Bool := u.is_staff

/-- `TeamViewSet.get_permissions` write gate (projects/views.py lines
15-24): `IsAdminUser | DjangoObjectPermissions`. For `create` there is
no object to check, so the request passes when the caller is staff or
holds the add permission. For `update`/`partial_update`/`destroy` the
object-level check of `DjangoObjectPermissions` consults the default
`ModelBackend`, which grants no per-object permissions, so only the
staff disjunct survives. -/
def team_write_allowed (u : User) : WAction → Bool
  | .create => is_admin_user u || has_django_perm u (required_perm "projects" "team" .create)
  | a => (is_admin_user u || has_django_perm u (required_perm "projects" "team" a))
      && is_admin_user u

/-- `ProjectViewSet.get_permissions` write gate (projects/views.py lines
47-55), same composition as for teams. -/
def project_write_allowed (u : User) : WAction → Bool
  | .create => is_admin_user u || has_django_perm u (required_perm "projects" "project" .create)
  | a => (is_admin_user u || has_django_perm u (required_perm "projects" "project" a))
      && is_admin_user u

/-- A Team write request: when permitted the table is modified by the
requested change `f`, otherwise HTTP 403 and the store is untouched. -/
def team_write (s : Store) (u : User) (a : WAction) (f : List Team → List Team) :
    Except Nat Store :=
  if team_write_allowed u a then .ok { s with teams := f s.teams } else .error 403

/-- A Project write request, as `team_write`. -/
def project_write (s : Store) (u : User) (a : WAction) (f : List Project → List Project) :
    Except Nat Store :=
  if project_write_allowed u a then .ok { s with projects := f s.projects } else .error 403

/-- The HTTP methods reaching `has_object_permission`. -/
inductive Method where
  | get
  | head
  | options
  | post
  | put
  | patch
  | delete
deriving DecidableEq

/-- `permissions.SAFE_METHODS` = GET, HEAD, OPTIONS. -/
def safe_method : Method → Bool
  | .get => true
  | .head => true
  | .options => true
  | .post => false
  | .put => false
  | .patch => false
  | .delete => false

/-- The object data `IsOwnerOrAdminOrTeamHeadOrProjectManager` inspects:
the row's owning user id and, when the model has one (TimeLog only),
its project id. `AppUsage`/`ActivityMetric` rows always carry `none`,
mirroring `hasattr(obj, 'project')` being false. -/
structure LogObj where
  user : Nat
  project : Option Nat
deriving DecidableEq

/-- `IsOwnerOrAdminOrTeamHeadOrProjectManager.has_object_permission`
(timetracking/views.py lines 20-40). -/
def has_object_permission (s : Store) (m : Method) (u : User) (obj : LogObj) : Bool :=
  if safe_method m then
    if u.is_superuser then true
    else if obj.user == u.id then true
    else if inGroup u "TeamHeads"
        && s.teams.any (fun t => t.head == some u.id && t.members.contains obj.user) then true
    else if inGroup u "ProjectManagers"
        && (match obj.project with
            | some pid => s.projects.any (fun p => p.id == pid && p.manager == some u.id)
            | none => false) then true
    else false
  else obj.user == u.id || u.is_superuser

/-- Forget the productivity scores of a `daily_summary` response. -/
def strip_scores (r : Except String (List DayRecord)) :
    Except String (List (Nat × ℚ × ℚ)) :=
  r.map (List.map (fun d => (d.date, d.working_hours, d.app_usage_hours)))

/-- Every productivity score of a successful response lies in [60, 100]. -/
def scores_in_range (r : Except String (List DayRecord)) : Bool :=
  match r with
  | .ok recs => recs.all (fun d =>
      decide (60 ≤ d.productivity_score) && decide (d.productivity_score ≤ 100))
  | .error _ => true

/-- Request payload for a TimeLog create: the serializer fields a client
may submit, including a `user` value the serializer must ignore. -/
structure TimeLogIn where
  user : Option Nat
  start_time : Nat
  end_time : Option Nat
  project : Option Nat
deriving DecidableEq

/-- `TimeLogSerializer` (timetracking/serializers.py lines 5-12): `user`
is in `read_only_fields`, so deserialization drops any submitted value. -/
def timelog_validated (p : TimeLogIn) : TimeLogIn := { p with user := none }

/-- `TimeLogViewSet.perform_create` (lines 69-70):
`serializer.save(user=self.request.user)` supplies the owner. -/
def timelog_perform_create (s : Store) (u : User) (p : TimeLogIn) (nid : Nat) : Store :=
  { s with time_logs := s.time_logs ++
      [{ id := nid
         user := u.id
         start_time := (timelog_validated p).start_time
         end_time := (timelog_validated p).end_time
         project := (timelog_validated p).project }] }

/-- Request payload for an AppUsage create. -/
structure AppUsageIn where
  user : Option Nat
  app_name : String
  duration_seconds : Nat
  timestamp : Nat
deriving DecidableEq

/-- `AppUsageSerializer`: `user` is read-only. -/
def appusage_validated (p : AppUsageIn) : AppUsageIn := { p with user := none }

/-- `AppUsageViewSet.perform_create` (lines 147-148). -/
def appusage_perform_create (s : Store) (u : User) (p : AppUsageIn) (nid : Nat) : Store :=
  { s with app_usages := s.app_usages ++
      [{ id := nid
         user := u.id
         app_name := (appusage_validated p).app_name
         duration_seconds := (appusage_validated p).duration_seconds
         timestamp := (appusage_validated p).timestamp }] }

/-- Request payload for an ActivityMetric create. -/
structure ActivityMetricIn where
  user : Option Nat
  metric_type : String
  value : ℚ
  timestamp : Nat
deriving DecidableEq

/-- `ActivityMetricSerializer`: `user` is read-only. -/
def activitymetric_validated (p : ActivityMetricIn) : ActivityMetricIn := { p with user := none }

/-- `ActivityMetricViewSet.perform_create` (lines 198-199). -/
def activitymetric_perform_create (s : Store) (u : User) (p : ActivityMetricIn) (nid : Nat) :
    Store :=
  { s with activity_metrics := s.activity_metrics ++
      [{ id := nid
         user := u.id
         metric_type := (activitymetric_validated p).metric_type
         value := (activitymetric_validated p).value
         timestamp := (activitymetric_validated p).timestamp }] }

/-! Concrete fixtures used by witnesses and counterexamples. -/

/-- A plain employee (no groups, no flags). -/
def empUser : User := ⟨1, "employee1", false, false, [], []⟩

/-- A caller in the TeamHeads group who heads no team in the store. -/
def headlessTH : User := ⟨1, "teamhead", false, false, ["TeamHeads"], []⟩

/-- Store for the C1 counterexample: the TeamHeads caller owns one
closed 9:00-11:00 log, but no Team row names them head. -/
def c1cxStore : Store := ⟨[headlessTH], [], [], [⟨1, 1, 540, some 660, none⟩], [], []⟩

/-- Store for the C1 witness: the employee owns one closed 9:00-11:00
log on day 0 (start 2024-01-01T09:00, end 2024-01-01T11:00). -/
def c1wStore : Store := ⟨[empUser], [], [], [⟨1, 1, 540, some 660, none⟩], [], []⟩

/-- Project with a 40-hour budget. -/
def c2Project : Project := ⟨1, "Website Redesign", none, none, 40, "In Progress"⟩

/-- Store with 10 hours of closed logs on `c2Project`. -/
def c2Store : Store := ⟨[empUser], [], [c2Project], [⟨1, 1, 0, some 600, some 1⟩], [], []⟩

/-- Project with a zero-hour budget. -/
def c3Project : Project := ⟨2, "Zero Budget", none, none, 0, "Planning"⟩

/-- Store with a closed log on `c3Project`, to make its report non-vacuous. -/
def c3Store : Store := ⟨[empUser], [], [c3Project], [⟨1, 1, 0, some 600, some 2⟩], [], []⟩

/-- Store without the open log of `c4After`. -/
def c4Before : Store := ⟨[empUser], [], [c2Project], [], [], []⟩

/-- `c4Before` plus one open TimeLog of the employee starting day 0 at
9:00 on project 1 (end_time null). -/
def c4After : Store := ⟨[empUser], [], [c2Project], [⟨1, 1, 540, none, some 1⟩], [], []⟩

/-- A staff member that is not a superuser and is in no group: its
derived role is employee, not admin. -/
def staffUser : User := ⟨7, "staffer", true, false, [], []⟩

/-- Store holding only `staffUser`. -/
def c5Store : Store := ⟨[staffUser], [], [], [], [], []⟩

/-- A fresh team a caller attempts to create. -/
def newTeam : Team := ⟨1, "New Team", none, []⟩

/-- Store for the C6 witness: two employees, the caller owns log 1 and
user 2 owns log 2. -/
def c6Store : Store :=
  ⟨[empUser, ⟨2, "employee2", false, false, [], []⟩], [], [],
    [⟨1, 1, 540, some 660, none⟩, ⟨2, 2, 540, some 660, none⟩], [], []⟩

/-- Team head of team 1 for the C7 witness. -/
def c7Head : User := ⟨2, "teamhead", false, false, ["TeamHeads"], []⟩

/-- Superuser for the C7 witness. -/
def c7Admin : User := ⟨3, "admin", false, true, [], []⟩

/-- Team 1: headed by user 2, with member user 1. -/
def c7Team : Team := ⟨1, "Development Team", some 2, [1]⟩

/-- Store for the C7 witness: the employee member owns one log, another
unrelated user owns a second log. -/
def c7Store : Store :=
  ⟨[empUser, c7Head, c7Admin, ⟨9, "other", false, false, [], []⟩], [c7Team], [],
    [⟨1, 1, 540, some 660, none⟩, ⟨2, 9, 540, some 660, none⟩], [], []⟩

/-- A project-manager caller (ProjectManagers group). -/
def pmUser : User := ⟨3, "projectmanager", false, false, ["ProjectManagers"], []⟩

/-- Store for C8: `pmUser` manages project 1; user 9 owns a TimeLog on
that project, one AppUsage sample and one ActivityMetric. -/
def c8Store : Store :=
  ⟨[pmUser, ⟨9, "other", false, false, [], []⟩], [],
    [⟨1, "Website Redesign", some 3, none, 80, "In Progress"⟩],
    [⟨1, 9, 300, some 360, some 1⟩],
    [⟨1, 9, "Chrome", 3600, 300⟩],
    [⟨1, 9, "keyboard_strokes", 100, 300⟩]⟩

/-- Store for the C9 counterexample: no rows at all. -/
def c9Store : Store := ⟨[empUser], [], [], [], [], []⟩

/-! Helper lemmas shared by several developments. -/

theorem round2_zero : round2 0 = 0 := by with_unfolding_all decide

theorem role_employee_spec (u : User) (h : role u = "employee") :
    u.is_superuser = false ∧ inGroup u "TeamHeads" = false
      ∧ inGroup u "ProjectManagers" = false := by
  unfold role at h
  split_ifs at h with h1 h2 h3
  · exact absurd h (by decide)
  · exact absurd h (by decide)
  · exact absurd h (by decide)
  · exact ⟨by simpa using h1, by simpa using h2, by simpa using h3⟩

theorem role_team_head_spec (u : User) (h : role u = "team_head") :
    u.is_superuser = false ∧ inGroup u "TeamHeads" = true := by
  unfold role at h
  split_ifs at h with h1 h2
  · exact absurd h (by decide)
  · exact ⟨by simpa using h1, h2⟩
  · exact absurd h (by decide)
  · exact absurd h (by decide)

theorem timelog_queryset_subset (s : Store) (u : User) :
    ∀ l ∈ timelog_queryset s u, l ∈ s.time_logs := by
  intro l hl
  unfold timelog_queryset at hl
  split_ifs at hl with h1 h2 h3
  · exact hl
  · exact List.mem_of_mem_filter hl
  · exact List.mem_of_mem_filter hl
  · exact List.mem_of_mem_filter hl

/-- Claim C2: for every project with estimated_hours > 0, progress_report
returns progress_percentage = total_hours / estimated_hours × 100 rounded
to 2 decimals, where total_hours sums the durations of the project's
closed TimeLogs, and the response carries the project id, name, estimated
hours, total hours spent rounded to 2 decimals, progress percentage and
status. -/
theorem C2_progress_report_formula (s : Store) (p : Project)
    (h : 0 < p.estimated_hours) :
    progress_report s p =
      { project_id := p.id
        project_name := p.name
        estimated_hours := p.estimated_hours
        total_time_spent_hours := round2 (total_closed_hours s p)
        progress_percentage := round2 (total_closed_hours s p / p.estimated_hours * 100)
        status := p.status } := by
  unfold progress_report total_closed_hours
  dsimp only
  rw [if_pos h]

/-- Witness for C2: the spec scenario, a 40-hour project with 10 hours of
closed logs reports progress_percentage = 25.0 . -/
theorem C2_witness :
    0 < c2Project.estimated_hours ∧
    progress_report c2Store c2Project =
      { project_id := 1
        project_name := "Website Redesign"
        estimated_hours := 40
        total_time_spent_hours := 10
        progress_percentage := 25
        status := "In Progress" } := by
  refine ⟨by with_unfolding_all decide, ?_⟩
  rw [C2_progress_report_formula c2Store c2Project (by with_unfolding_all decide)]
  with_unfolding_all decide

/-- Claim C3: for every project with estimated_hours ≤ 0 the progress
percentage is 0, independently of the store, so the division branch is
never taken. -/
theorem C3_progress_zero_when_budget_nonpositive (p : Project)
    (h : p.estimated_hours ≤ 0) :
    ∀ s : Store, (progress_report s p).progress_percentage = 0 := by
  intro s
  unfold progress_report
  dsimp only
  rw [if_neg (not_lt.mpr h)]
  exact round2_zero

/-- Witness for C3: a zero-budget project with closed logs still reports
progress_percentage = 0. -/
theorem C3_witness :
    c3Project.estimated_hours ≤ 0 ∧
    (progress_report c3Store c3Project).progress_percentage = 0 :=
  ⟨by with_unfolding_all decide,
    C3_progress_zero_when_budget_nonpositive c3Project (by with_unfolding_all decide) c3Store⟩

/-- Claim C10: for every successful create on a TimeLog, AppUsage or
ActivityMetric, the stored row is owned by the caller: the serializer's
read-only user field makes any submitted user value irrelevant, and the
row appended to the table carries the caller's id. -/
theorem C10_create_owner_is_caller (s : Store) (u : User) (nid : Nat) :
    (∀ (p : TimeLogIn) (x : Option Nat),
      timelog_perform_create s u { p with user := x } nid = timelog_perform_create s u p nid ∧
      (timelog_perform_create s u p nid).time_logs =
        s.time_logs ++ [⟨nid, u.id, p.start_time, p.end_time, p.project⟩]) ∧
    (∀ (p : AppUsageIn) (x : Option Nat),
      appusage_perform_create s u { p with user := x } nid = appusage_perform_create s u p nid ∧
      (appusage_perform_create s u p nid).app_usages =
        s.app_usages ++ [⟨nid, u.id, p.app_name, p.duration_seconds, p.timestamp⟩]) ∧
    (∀ (p : ActivityMetricIn) (x : Option Nat),
      activitymetric_perform_create s u { p with user := x } nid =
        activitymetric_perform_create s u p nid ∧
      (activitymetric_perform_create s u p nid).activity_metrics =
        s.activity_metrics ++ [⟨nid, u.id, p.metric_type, p.value, p.timestamp⟩]) :=
  ⟨fun _ _ => ⟨rfl, rfl⟩, fun _ _ => ⟨rfl, rfl⟩, fun _ _ => ⟨rfl, rfl⟩⟩

theorem day_working_hours_ok (qs : List TimeLog) (d : Nat)
    (h : ((day_logs qs d).isEmpty
        || !((day_logs qs d).filterMap durationHours).isEmpty) = true) :
    day_working_hours qs d = .ok (round2 (closed_day_sum qs d)) := by
  unfold day_working_hours closed_day_sum
  by_cases h1 : (day_logs qs d).isEmpty = true
  · rw [if_pos h1, List.isEmpty_iff.mp h1]
    simp [round2_zero]
  · rw [if_neg h1]
    have h2 : ¬ ((day_logs qs d).filterMap durationHours).isEmpty = true := by
      rcases Bool.or_eq_true_iff.mp h with ha | hb
      · exact absurd ha h1
      · simpa using hb
    rw [if_neg h2]

theorem build_days_map_ok (qs : List TimeLog) (aqs : List AppUsage)
    (rng : Nat → Nat) (sd : Nat) (l : List Nat)
    (h : ∀ i ∈ l, day_working_hours qs (sd + i) = .ok (round2 (closed_day_sum qs (sd + i)))) :
    build_days qs aqs rng (l.map (fun i => (i, sd + i))) =
      .ok (l.map (fun i =>
        { date := sd + i
          working_hours := round2 (closed_day_sum qs (sd + i))
          app_usage_hours := day_app_usage_hours aqs (sd + i)
          productivity_score := 60 + rng i % 41 })) := by
  induction l with
  | nil => rfl
  | cons a t ih =>
    simp only [List.map_cons, build_days]
    rw [h a (List.mem_cons_self a t), ih (fun i hi => h i (List.mem_cons_of_mem a hi))]
    rfl

/-- Claim C1 (amended): provided every day in [sd, ed] on which some log
of the caller's filtered queryset starts also has a closed such log
(otherwise the endpoint raises a TypeError), daily_summary returns
exactly one record per calendar day, in order, whose working_hours is
the 2-decimal rounding of the summed closed-log durations of that
queryset starting that day — 0.0 for a day with no matching rows. The
queryset is the caller's own rows within their role-visible set, which
for employees and admins is all of the caller's logs. -/
theorem C1_daily_summary_amended (s : Store) (u : User) (sd ed : Nat)
    (rng : Nat → Nat) (h : no_open_only_day s u sd ed = true) :
    daily_summary s u sd ed rng =
      .ok ((List.range (ed + 1 - sd)).map (fun i =>
        { date := sd + i
          working_hours := round2 (closed_day_sum (ds_timelog_queryset s u sd ed) (sd + i))
          app_usage_hours := day_app_usage_hours (ds_appusage_queryset s u sd ed) (sd + i)
          productivity_score := 60 + rng i % 41 })) := by
  unfold daily_summary
  apply build_days_map_ok
  intro i hi
  apply day_working_hours_ok
  unfold no_open_only_day date_range at h
  exact List.all_eq_true.mp h (sd + i) (List.mem_map.mpr ⟨i, hi, rfl⟩)

/-- Counterexample to claim C1 as stated: a caller in the TeamHeads
group who heads no team has an empty role queryset, so the 9:00-11:00
closed log the caller owns that day is not summed: the claim demands
working_hours = 2.0, the code returns 0.0 . -/
theorem C1_counterexample :
    closed_day_sum (c1cxStore.time_logs.filter (fun l => l.user == headlessTH.id)) 0 = 2 ∧
    daily_summary c1cxStore headlessTH 0 0 (fun _ => 0) = .ok [⟨0, 0, 0, 60⟩] := by
  with_unfolding_all decide

/-- Witness for C1 (amended): the spec scenario, a closed log from
2024-01-01T09:00 to 2024-01-01T11:00 yields exactly 2.0 working hours on
its day for an employee caller. -/
theorem C1_witness :
    no_open_only_day c1wStore empUser 0 0 = true ∧
    daily_summary c1wStore empUser 0 0 (fun _ => 0) = .ok [⟨0, 2, 0, 60⟩] := by
  refine ⟨by with_unfolding_all decide, ?_⟩
  rw [C1_daily_summary_amended c1wStore empUser 0 0 (fun _ => 0) (by with_unfolding_all decide)]
  with_unfolding_all decide

/-- Claim C4 evaluated at its failing input: for progress_report, adding
the open log changes nothing (SQL Sum skips the NULL duration), but in
daily_summary the day's group now exists with a NULL sum, and the
endpoint raises TypeError instead of reporting working_hours = 0.0 . -/
theorem C4_open_log_breaks_daily_summary :
    progress_report c4After c2Project = progress_report c4Before c2Project ∧
    daily_summary c4Before empUser 0 0 (fun _ => 0) = .ok [⟨0, 0, 0, 60⟩] ∧
    daily_summary c4After empUser 0 0 (fun _ => 0) =
      .error "TypeError: type NoneType does not define a round method" := by
  with_unfolding_all decide

/-- Counterexample to claim C5 as stated: a staff member that is not a
superuser has derived role employee, yet its Team create succeeds and
changes the store, because the write gate is
`IsAdminUser | DjangoObjectPermissions` and `IsAdminUser` tests the
staff flag. -/
theorem C5_counterexample :
    role staffUser = "employee" ∧
    team_write c5Store staffUser .create (fun ts => ts ++ [newTeam]) =
      .ok ⟨[staffUser], [newTeam], [], [], [], []⟩ := by
  with_unfolding_all decide

/-- Claim C5 (amended): Team and Project writes are gated by
`IsAdminUser | DjangoObjectPermissions`, so a caller that has neither
the staff flag nor any Django model permission — in particular every
default non-admin user — receives 403 from every create, update,
partial_update or destroy on a Team or a Project, and the store is
unchanged. -/
theorem C5_nonstaff_writes_denied (s : Store) (u : User) (a : WAction)
    (f : List Team → List Team) (g : List Project → List Project)
    (h1 : u.is_staff = false) (h2 : u.user_permissions = []) :
    team_write s u a f = .error 403 ∧ project_write s u a g = .error 403 := by
  have hperm : ∀ p : String, has_django_perm u p = false := by
    intro p
    simp [has_django_perm, h2]
  constructor
  · unfold team_write
    rw [if_neg]
    intro hcontra
    cases a <;> simp [team_write_allowed, is_admin_user, h1, hperm] at hcontra
  · unfold project_write
    rw [if_neg]
    intro hcontra
    cases a <;> simp [project_write_allowed, is_admin_user, h1, hperm] at hcontra

/-- Witness for C5 (amended): a plain employee's Team destroy and
Project update both fail with 403. -/
theorem C5_witness :
    empUser.is_staff = false ∧ empUser.user_permissions = [] ∧
    team_write c5Store empUser .destroy (fun _ => []) = .error 403 ∧
    project_write c5Store empUser .update (fun ps => ps) = .error 403 := by
  refine ⟨rfl, rfl, ?_⟩
  have h := C5_nonstaff_writes_denied c5Store empUser .destroy (fun _ => [])
    (fun ps => ps) rfl rfl
  have h2 := C5_nonstaff_writes_denied c5Store empUser .update (fun _ => [])
    (fun ps => ps) rfl rfl
  exact ⟨h.1, h2.2⟩

/-- Claim C6: for every unsafe method, object permission on a log row
reduces to owner-or-superuser, and an employee's TimeLog queryset never
contains another user's row, so a foreign row is filtered out of list
and detail lookups. -/
theorem C6_log_write_owner_or_admin (s : Store) (m : Method) (u : User)
    (obj : LogObj) (hm : safe_method m = false) :
    has_object_permission s m u obj = (obj.user == u.id || u.is_superuser) ∧
    (role u = "employee" → ∀ l ∈ timelog_queryset s u, l.user = u.id) := by
  constructor
  · unfold has_object_permission
    rw [hm]
    simp
  · intro hrole l hl
    obtain ⟨h1, h2, h3⟩ := role_employee_spec u hrole
    unfold timelog_queryset at hl
    simp only [h1, h2, h3, Bool.false_eq_true, if_false] at hl
    simpa using (List.mem_filter.mp hl).2

/-- Witness for C6: the employee cannot delete user 2's log and sees
only owned rows in the TimeLog list. -/
theorem C6_witness :
    has_object_permission c6Store .delete empUser ⟨2, none⟩ = false ∧
    (∀ l ∈ timelog_queryset c6Store empUser, l.user = empUser.id) := by
  have h := C6_log_write_owner_or_admin c6Store .delete empUser ⟨2, none⟩ rfl
  refine ⟨?_, h.2 (by with_unfolding_all decide)⟩
  rw [h.1]
  with_unfolding_all decide

/-- Claim C7: for a fixed store, an employee's visible TimeLog set is
contained in the set visible to the head of a team the employee belongs
to, which is contained in the full table an admin sees. -/
theorem C7_role_visibility_chain (s : Store) (e hd a : User) (t : Team)
    (hu : e ∈ s.users) (ht : t ∈ s.teams) (hhead : t.head = some hd.id)
    (hmem : t.members.contains e.id = true)
    (hre : role e = "employee") (hrh : role hd = "team_head")
    (hra : a.is_superuser = true) :
    (∀ l ∈ timelog_queryset s e, l ∈ timelog_queryset s hd) ∧
    (∀ l ∈ timelog_queryset s hd, l ∈ timelog_queryset s a) ∧
    timelog_queryset s a = s.time_logs := by
  have ha : timelog_queryset s a = s.time_logs := by
    unfold timelog_queryset
    rw [if_pos hra]
  refine ⟨?_, ?_, ha⟩
  · intro l hl
    obtain ⟨he1, he2, he3⟩ := role_employee_spec e hre
    obtain ⟨hh1, hh2⟩ := role_team_head_spec hd hrh
    unfold timelog_queryset at hl ⊢
    simp only [he1, he2, he3, Bool.false_eq_true, if_false] at hl
    simp only [hh1, hh2, Bool.false_eq_true, if_false, if_true]
    obtain ⟨hmem_l, hown⟩ := List.mem_filter.mp hl
    refine List.mem_filter.mpr ⟨hmem_l, ?_⟩
    have huser : l.user = e.id := by simpa using hown
    rw [huser]
    have hin : e.id ∈ team_member_ids s hd := by
      unfold team_member_ids
      refine List.mem_map.mpr ⟨e, List.mem_filter.mpr ⟨hu, ?_⟩, rfl⟩
      refine List.any_eq_true.mpr ⟨t, ht, ?_⟩
      rw [hhead, hmem]
      simp
    exact List.elem_iff.mpr hin
  · intro l hl
    rw [ha]
    exact timelog_queryset_subset s hd l hl

/-- Witness for C7: concrete chain employee ⊆ team head ⊆ admin on
`c7Store`. -/
theorem C7_witness :
    (∀ l ∈ timelog_queryset c7Store empUser, l ∈ timelog_queryset c7Store c7Head) ∧
    (∀ l ∈ timelog_queryset c7Store c7Head, l ∈ timelog_queryset c7Store c7Admin) ∧
    timelog_queryset c7Store c7Admin = c7Store.time_logs :=
  C7_role_visibility_chain c7Store empUser c7Head c7Admin c7Team
    (by with_unfolding_all decide) (by with_unfolding_all decide) rfl
    (by with_unfolding_all decide) (by with_unfolding_all decide)
    (by with_unfolding_all decide) rfl

/-- Claim C8 evaluated on a store where the caller manages project 1:
the TimeLog queryset is indeed the managed-project rows, but the
AppUsage and ActivityMetric querysets raise FieldError (their models
have no `timelogs` relation), so those visible sets are never computed. -/
theorem C8_pm_log_querysets_fielderror :
    timelog_queryset c8Store pmUser = [⟨1, 9, 300, some 360, some 1⟩] ∧
    appusage_queryset c8Store pmUser =
      .error "FieldError: cannot resolve keyword timelogs into field of AppUsage" ∧
    activitymetric_queryset c8Store pmUser =
      .error "FieldError: cannot resolve keyword timelogs into field of ActivityMetric" := by
  with_unfolding_all decide

theorem build_days_scores (qs : List TimeLog) (aqs : List AppUsage)
    (rng : Nat → Nat) (l : List (Nat × Nat)) :
    scores_in_range (build_days qs aqs rng l) = true := by
  induction l with
  | nil => rfl
  | cons p t ih =>
    obtain ⟨i, d⟩ := p
    simp only [build_days]
    cases h1 : day_working_hours qs d with
    | error e => rfl
    | ok v =>
      cases h2 : build_days qs aqs rng t with
      | error e2 => rfl
      | ok recs =>
        rw [h2] at ih
        have hmod : rng i % 41 < 41 := Nat.mod_lt _ (by norm_num)
        have iha : recs.all (fun r =>
            decide (60 ≤ r.productivity_score) && decide (r.productivity_score ≤ 100)) = true := by
          simpa [scores_in_range] using ih
        show scores_in_range (Except.ok
          ({ date := d, working_hours := v, app_usage_hours := day_app_usage_hours aqs d,
             productivity_score := 60 + rng i % 41 } :: recs)) = true
        simp only [scores_in_range, List.all_cons, Bool.and_eq_true, decide_eq_true_eq]
        exact ⟨⟨by omega, by omega⟩, iha⟩

theorem build_days_strip (qs : List TimeLog) (aqs : List AppUsage)
    (rng1 rng2 : Nat → Nat) (l : List (Nat × Nat)) :
    strip_scores (build_days qs aqs rng1 l) = strip_scores (build_days qs aqs rng2 l) := by
  induction l with
  | nil => rfl
  | cons p t ih =>
    obtain ⟨i, d⟩ := p
    simp only [build_days]
    cases h1 : day_working_hours qs d with
    | error e => rfl
    | ok v =>
      cases h2 : build_days qs aqs rng1 t with
      | error e2 =>
        cases h3 : build_days qs aqs rng2 t with
        | error e3 =>
          rw [h2, h3] at ih
          have he : e2 = e3 := by simpa [strip_scores, Except.map] using ih
          rw [he]
          rfl
        | ok recs2 =>
          rw [h2, h3] at ih
          simp [strip_scores, Except.map] at ih
      | ok recs1 =>
        cases h3 : build_days qs aqs rng2 t with
        | error e3 =>
          rw [h2, h3] at ih
          simp [strip_scores, Except.map] at ih
        | ok recs2 =>
          rw [h2, h3] at ih
          have iht : List.map (fun r => (r.date, r.working_hours, r.app_usage_hours)) recs1 =
              List.map (fun r => (r.date, r.working_hours, r.app_usage_hours)) recs2 := by
            simpa [strip_scores, Except.map] using ih
          show Except.ok ((d, v, day_app_usage_hours aqs d) ::
              List.map (fun r => (r.date, r.working_hours, r.app_usage_hours)) recs1) =
            Except.ok ((d, v, day_app_usage_hours aqs d) ::
              List.map (fun r => (r.date, r.working_hours, r.app_usage_hours)) recs2)
          rw [iht]

/-- Claim C9 (amended): every productivity_score of a successful
daily_summary lies in [60, 100], and everything except the scores —
dates, working_hours, app_usage_hours, and the error outcome — is a
deterministic function of the store and the range; but the scores
themselves are drawn fresh from the random stream, so two runs with
different draws need not return identical results. -/
theorem C9_score_range_and_determinism (s : Store) (u : User) (sd ed : Nat)
    (rng1 rng2 : Nat → Nat) :
    scores_in_range (daily_summary s u sd ed rng1) = true ∧
    strip_scores (daily_summary s u sd ed rng1) =
      strip_scores (daily_summary s u sd ed rng2) :=
  ⟨build_days_scores _ _ _ _, build_days_strip _ _ _ _ _⟩

/-- Counterexample to claim C9 as stated: two runs of daily_summary on
the same empty store and range, differing only in the random draws,
return different records. -/
theorem C9_counterexample :
    daily_summary c9Store empUser 0 0 (fun _ => 0) ≠
      daily_summary c9Store empUser 0 0 (fun _ => 1) := by
  with_unfolding_all decide
